import Mathlib

/-!
Shallow embedding of the conversion task-graph and execution engine of
`model_navigator` (files `cli/convert_model.py`, `converter/tf/config.py`,
`framework_api/commands/export/tf.py`,
`framework_api/commands/export/exporters/pytorch2onnx.py`), together with
theorems settling the specification claims about it.

Python generators are modelled as pure functions returning lists; the
filesystem is modelled as the list of existing paths; environment variables
as `Option String`; exceptions as `Except`.
-/

namespace ModelNavigator

/-- Model serialization formats (`model_navigator.model.Format`), restricted to
the members of `TRITON_SUPPORTED_FORMATS` in `cli/convert_model.py`. -/
inductive Format where
  | TF_SAVEDMODEL
  | ONNX
  | TENSORRT
  | TORCHSCRIPT
deriving DecidableEq, Repr

/-- TensorRT numeric precisions (`model_navigator.converter.config.TensorRTPrecision`),
the two members used as defaults in `ConversionSetConfig`. -/
inductive TensorRTPrecision where
  | FP16
  | TF32
deriving DecidableEq, Repr

/-- One fully resolved conversion target (`model_navigator.converter.ConversionConfig`):
target format, optional precision, optional opset, optional workspace-size bound.
The class itself is outside `src/`; its fields are those constructed by the
sub-expanders and by `ConversionSetConfig.from_single_config`. -/
structure ConversionConfig where
  target_format : Format
  target_precision : Option TensorRTPrecision := none
  onnx_opset : Option Int := none
  max_workspace_size : Option Nat := none
deriving DecidableEq, Repr

/-- The declarative conversion request (`ConversionSetConfig` in
`cli/convert_model.py`): ordered target formats, precision set, opset set and
an optional workspace-size bound. -/
structure ConversionSetConfig where
  target_formats : List Format
  target_precisions : List TensorRTPrecision
  onnx_opsets : List Int
  max_workspace_size : Option Nat := none
deriving DecidableEq, Repr

/-- `TensorFlowConfigSetIterator.__iter__` from `converter/tf/config.py`:
yields exactly one `ConversionConfig` with target format `TF_SAVEDMODEL`
regardless of the other request dimensions. -/
def tensorFlowConfigSetIterator (_cfg : ConversionSetConfig) : List ConversionConfig :=
  [{ target_format := Format.TF_SAVEDMODEL }]

/-- Modelled from the spec: the TensorRT sub-expander of
`TargetFormatConfigSetIterator` (its module `converter/config.py` is not under
`src/`). A format requiring numeric precision expands across the precision
set, carrying the request's workspace-size bound. -/
def tensorRTConfigSetIterator (cfg : ConversionSetConfig) : List ConversionConfig :=
  cfg.target_precisions.map fun p =>
    { target_format := Format.TENSORRT
      target_precision := some p
      max_workspace_size := cfg.max_workspace_size }

/-- Modelled from the spec: the ONNX sub-expander of
`TargetFormatConfigSetIterator` (its module is not under `src/`). The format
expands across the opset set and ignores the precision dimension. -/
def onnxConfigSetIterator (cfg : ConversionSetConfig) : List ConversionConfig :=
  cfg.onnx_opsets.map fun op =>
    { target_format := Format.ONNX, onnx_opset := some op }

/-- Modelled from the spec: the TorchScript sub-expander of
`TargetFormatConfigSetIterator` (its module is not under `src/`). A format
that accepts no options expands to exactly one spec. -/
def torchScriptConfigSetIterator (_cfg : ConversionSetConfig) : List ConversionConfig :=
  [{ target_format := Format.TORCHSCRIPT }]

/-- Modelled from the spec: `TargetFormatConfigSetIterator.for_target_format`
(its module `converter/config.py` is not under `src/`): dispatch to the
format-specific sub-expander. The `TF_SAVEDMODEL` case is the source
`TensorFlowConfigSetIterator` from `converter/tf/config.py`. -/
def for_target_format (f : Format) (cfg : ConversionSetConfig) : List ConversionConfig :=
  match f with
  | Format.TF_SAVEDMODEL => tensorFlowConfigSetIterator cfg
  | Format.ONNX => onnxConfigSetIterator cfg
  | Format.TENSORRT => tensorRTConfigSetIterator cfg
  | Format.TORCHSCRIPT => torchScriptConfigSetIterator cfg

/-- `ConversionSetConfig.__iter__` from `cli/convert_model.py`: for each target
format in declaration order, yield everything the format-specific sub-expander
produces. -/
def conversionSetConfigIter (cfg : ConversionSetConfig) : List ConversionConfig :=
  (cfg.target_formats.map fun f => for_target_format f cfg).flatten

/-- Result states (`model_navigator.results.State`); the members inspected by
`cli/convert_model.py`. -/
inductive State where
  | SUCCEEDED
  | FAILED
deriving DecidableEq, Repr

/-- Modelled from the spec: the status record of a conversion result (the
`results` module is not under `src/`); `cli/convert_model.py` reads
`result.status.state`. -/
structure ResultStatus where
  state : State
deriving DecidableEq, Repr

/-- Modelled from the spec: the resulting model handle (path + format); the
defining module is not under `src/`. `cli/convert_model.py` reads
`result.output_model.path`. -/
structure OutputModel where
  path : String
deriving DecidableEq, Repr

/-- Modelled from the spec: `ConversionResult` (defined outside `src/`),
restricted to the fields `cli/convert_model.py` uses: `status.state`,
`output_model.path` and `framework_docker_image`. -/
structure ConversionResult where
  status : ResultStatus
  output_model : OutputModel
  framework_docker_image : String
deriving DecidableEq, Repr

/-- Helper to build a `ConversionResult` for concrete test inputs. -/
def mkResult (s : State) (p : String) (img : String) : ConversionResult :=
  { status := { state := s }, output_model := { path := p }, framework_docker_image := img }

/-- The filter predicate of `cli/convert_model.py`:
`r.status.state == State.SUCCEEDED`. -/
def isSucceeded (r : ConversionResult) : Bool :=
  r.status.state == State.SUCCEEDED

/-- The exact warning text logged by `_copy_to_output_path` when no conversion
succeeded. -/
def noSuccessfulResultsMsg : String :=
  "Obtained no successful conversion results for given model and conversion parameters"

/-- The exact warning text logged by `_copy_to_output_path` when more than one
conversion succeeded; the f-string interpolates only `output_path`. -/
def moreThanOneResultMsg (output_path : String) : String :=
  "Obtained more than 1 successful conversion result - copy just first one into " ++
    output_path ++ "."

/-- Observable outcome of `_copy_to_output_path`: which model path was copied
to the output location (if any) and the warnings logged. -/
structure CopyOutcome where
  copied : Option String
  warnings : List String
deriving DecidableEq, Repr

/-- `_copy_to_output_path` from `cli/convert_model.py`: filter to SUCCEEDED
results; if none, warn and copy nothing; if more than one, warn and copy the
first; otherwise copy the single one. -/
def _copy_to_output_path (conversion_results : List ConversionResult) (output_path : String) :
    CopyOutcome :=
  let successful := conversion_results.filter isSucceeded
  match successful with
  | [] => { copied := none, warnings := [noSuccessfulResultsMsg] }
  | [r] => { copied := some r.output_model.path, warnings := [] }
  | r :: _ :: _ =>
    { copied := some r.output_model.path, warnings := [moreThanOneResultMsg output_path] }

/-- Boolean substring test: does `pat` occur inside `s`? Used to check whether
a logged warning names a given model path. -/
def strContains (s pat : String) : Bool :=
  (List.range (s.toList.length + 1)).any fun i => pat.toList.isPrefixOf (s.toList.drop i)

/-- The exact exception message raised by `convert` in `cli/convert_model.py`
when no conversion succeeded. -/
def navigatorNoSuccessfulMsg : String := "No successful conversion performed."

/-- The tail of `convert` from `cli/convert_model.py` (after the results are
produced and dumped): raise `ModelNavigatorException` when no result
SUCCEEDED; otherwise copy to the output path when one was given, and return
the full result list. -/
def convertFinalize (conversion_results : List ConversionResult) (output_path : Option String) :
    Except String (List ConversionResult × Option CopyOutcome) :=
  let successful := conversion_results.filter isSucceeded
  if successful.isEmpty then
    Except.error navigatorNoSuccessfulMsg
  else
    match output_path with
    | some out => Except.ok (conversion_results, some (_copy_to_output_path conversion_results out))
    | none => Except.ok (conversion_results, none)

/-- Observable outcome of a body run through `ExecutionContext`: the final
filesystem, the persisted shell command (script path plus the exact argument
list), and the body's result. -/
structure ExecOutcome where
  fs : List String
  cmd : Option (String × List String)
  result : Except String Unit
deriving Repr

/-- Modelled from the spec: `ExecutionContext`
(`framework_api/execution_context.py` is not under `src/`). On entry it
prepares a standalone reproduction script at `script_path` and a shell command
at `cmd_path` that invokes the script with the exact arguments used; on exit
it persists both regardless of whether the body succeeded or raised. -/
def executionContextRun (fs : List String) (script_path cmd_path : String)
    (args : List String) (body : List String → List String × Except String Unit) :
    ExecOutcome :=
  let br := body fs
  { fs := cmd_path :: script_path :: br.1, cmd := some (script_path, args), result := br.2 }

/-- Modelled from the spec: `ExportBase.get_output_relative_path` for the
`TF_SAVEDMODEL` target format (`framework_api/commands/export/base.py` is not
under `src/`): the step's declared output location relative to the workdir. -/
def tfSavedModelRelPath : String := "tf-savedmodel/model.savedmodel"

/-- Errors an export command call can raise: the `assert` in its body, or an
exception propagated out of the delegated exporter. -/
inductive ExportCallError where
  | assertionError
  | exporterError (msg : String)
deriving DecidableEq, Repr

/-- Observable outcome of an export command `__call__`: final filesystem,
returned relative output path (or raised error), whether the cached-output
branch was taken (the framework marks such a step SKIPPED, modelled from the
spec since the status machinery is not under `src/`), whether the delegated
exporter was invoked, and the persisted reproduction command. -/
structure ExportCallOutcome where
  fs : List String
  ret : Except ExportCallError String
  skipped : Bool
  exporterInvoked : Bool
  reproCmd : Option (String × List String)
deriving Repr

/-- `ExportTF2SavedModel.__call__` from `framework_api/commands/export/tf.py`:
if the declared output path already exists under the workdir, log and return
the relative output path without exporting; otherwise assert the model is
present, then run the exporter through `ExecutionContext` with the reproduction
script/command placed next to the output. `exporter` abstracts the delegated
`keras2savedmodel.export` run: `ok` creates the output file, `error`
propagates. -/
def exportTF2SavedModel_call (fs : List String) (workdir : String) (modelIsSome : Bool)
    (args : List String) (exporter : Except String Unit) : ExportCallOutcome :=
  let exported_model_path := workdir ++ "/" ++ tfSavedModelRelPath
  if exported_model_path ∈ fs then
    { fs := fs, ret := Except.ok tfSavedModelRelPath, skipped := true,
      exporterInvoked := false, reproCmd := none }
  else if !modelIsSome then
    { fs := fs, ret := Except.error ExportCallError.assertionError, skipped := false,
      exporterInvoked := false, reproCmd := none }
  else
    let script_path := workdir ++ "/tf-savedmodel/reproduce_export.py"
    let cmd_path := workdir ++ "/tf-savedmodel/reproduce_export.sh"
    let eo := executionContextRun fs script_path cmd_path args fun fs0 =>
      match exporter with
      | Except.ok _ => (exported_model_path :: fs0, Except.ok ())
      | Except.error e => (fs0, Except.error e)
    { fs := eo.fs,
      ret := match eo.result with
        | Except.ok _ => Except.ok tfSavedModelRelPath
        | Except.error e => Except.error (ExportCallError.exporterError e),
      skipped := false, exporterInvoked := true, reproCmd := eo.cmd }

/-- `UpdateSavedModelSignature.__call__` from
`framework_api/commands/export/tf.py`: asserts that the declared SavedModel
output path already exists under the workdir, then re-exports it through
`ExecutionContext` via the delegated `savedmodel2savedmodel.export`. -/
def updateSavedModelSignature_call (fs : List String) (workdir : String)
    (args : List String) (exporter : Except String Unit) : ExportCallOutcome :=
  let exported_model_path := workdir ++ "/" ++ tfSavedModelRelPath
  if exported_model_path ∉ fs then
    { fs := fs, ret := Except.error ExportCallError.assertionError, skipped := false,
      exporterInvoked := false, reproCmd := none }
  else
    let script_path := workdir ++ "/tf-savedmodel/reproduce_export.py"
    let cmd_path := workdir ++ "/tf-savedmodel/reproduce_export.sh"
    let eo := executionContextRun fs script_path cmd_path args fun fs0 =>
      match exporter with
      | Except.ok _ => (fs0, Except.ok ())
      | Except.error e => (fs0, Except.error e)
    { fs := eo.fs,
      ret := match eo.result with
        | Except.ok _ => Except.ok tfSavedModelRelPath
        | Except.error e => Except.error (ExportCallError.exporterError e),
      skipped := false, exporterInvoked := true, reproCmd := eo.cmd }

/-- The workspace: a filesystem root owning all intermediate artifacts of one
invocation, modelled by its list of contained paths. -/
structure WorkspaceState where
  contents : List String
deriving DecidableEq, Repr

/-- Modelled from the spec: `clean_workspace_if_needed` (`utils/cli.py` is not
under `src/`): wipe the workspace contents when the override flag is
requested, leave it as is otherwise. -/
def clean_workspace_if_needed (ws : WorkspaceState) (override_workspace : Bool) :
    WorkspaceState :=
  if override_workspace then { contents := [] } else ws

/-- Python truthiness of `os.environ.get(name)`: absent and empty-string
values are falsy. -/
def envTruthy : Option String → Bool
  | none => false
  | some s => !(s == "")

/-- The value `_run_in_docker` assigns to the `MODEL_NAVIGATOR_RUN_BY`
re-entrancy marker in the container environment (`1`, serialized). -/
def dockerSandboxMarkerValue : String := "1"

/-- The workspace-cleanup step at the head of `_run_locally`
(`cli/convert_model.py` lines 115-116): `clean_workspace_if_needed` runs only
when the `MODEL_NAVIGATOR_RUN_BY` environment marker is not truthily set. -/
def _run_locally_workspace_step (marker : Option String) (ws : WorkspaceState)
    (override_workspace : Bool) : WorkspaceState :=
  if envTruthy marker then ws else clean_workspace_if_needed ws override_workspace

/-- The possible exits of `container.run_cmd` inside `_run_in_docker`:
normal return, a `DockerException`, or an interruption. -/
inductive CmdOutcome where
  | success
  | dockerError (msg : String)
  | interrupted
deriving DecidableEq, Repr

/-- Errors the container phase propagates to the caller. -/
inductive ContainerRunError where
  | docker (msg : String)
  | interrupt
deriving DecidableEq, Repr

/-- The launched sandbox container, modelled by whether it has been killed. -/
structure ContainerState where
  killed : Bool
deriving DecidableEq, Repr

/-- Shallow embedding of Python `try ... finally`: run the body, then apply
the finalizer to the resulting state on every exit path, re-propagating the
body's result. -/
def tryFinally {σ ε α : Type} (body : σ → σ × Except ε α) (finalizer : σ → σ)
    (s : σ) : σ × Except ε α :=
  let br := body s
  (finalizer br.1, br.2)

/-- The container-execution phase of `_run_in_docker` (`cli/convert_model.py`
lines 210-217): `container.run_cmd` inside try / except `DockerException`
(re-raised) / finally `container.kill()`. -/
def _run_in_docker_container_phase (outcome : CmdOutcome) (c : ContainerState) :
    ContainerState × Except ContainerRunError Unit :=
  tryFinally
    (fun s =>
      match outcome with
      | CmdOutcome.success => (s, Except.ok ())
      | CmdOutcome.dockerError m => (s, Except.error (ContainerRunError.docker m))
      | CmdOutcome.interrupted => (s, Except.error ContainerRunError.interrupt))
    (fun s => { s with killed := true }) c

/-- Modelled from the spec: `ResultsStore.load` (the `results` module is not
under `src/`): return the persisted list for an operation name, empty when the
name is absent; the store is modelled as the map from names to lists. -/
def resultsStoreLoad (store : String → List ConversionResult) (name : String) :
    List ConversionResult :=
  store name

/-- Modelled from the spec: `ResultsStore.dump` (the `results` module is not
under `src/`): persist the full list for an operation name, replacing any
prior list for that name and leaving other names untouched. -/
def resultsStoreDump (store : String → List ConversionResult) (name : String)
    (results : List ConversionResult) : String → List ConversionResult :=
  fun n => if n = name then results else store n

/-- The post-container results phase of `_run_in_docker`
(`cli/convert_model.py` lines 219-226): reload the ledger, patch every
result's `framework_docker_image` via `dataclasses.replace`, dump the patched
list back under the same name, and return it. -/
def _run_in_docker_results_phase (store : String → List ConversionResult)
    (framework_docker_image : String) :
    (String → List ConversionResult) × List ConversionResult :=
  let results := resultsStoreLoad store "convert_model"
  let patched := results.map fun r =>
    { r with framework_docker_image := framework_docker_image }
  (resultsStoreDump store "convert_model" patched, patched)

/-- A concrete one-entry ledger used by the C8 witness. -/
def witnessStore : String → List ConversionResult := fun n =>
  if n = "convert_model" then [mkResult State.SUCCEEDED "m" "old_img"] else []

end ModelNavigator

namespace ModelNavigator

/-- The head of a filtered list is the first element satisfying the predicate. -/
theorem head?_filter_eq_find? (p : α → Bool) (l : List α) :
    (l.filter p).head? = l.find? p := by
  induction l with
  | nil => rfl
  | cons a t ih =>
    by_cases h : p a
    · simp [List.filter_cons, List.find?_cons, h]
    · simp [List.filter_cons, List.find?_cons, h, ih]

/-- Claim C1: Expansion is deterministic. `ConversionSetConfig.__iter__` is a
pure function of the request's fields: two requests that agree on every field
(in particular, two runs on an identical request) expand to identical
`ConversionConfig` sequences in identical order. -/
theorem conversionSetConfigIter_deterministic (c₁ c₂ : ConversionSetConfig)
    (hf : c₁.target_formats = c₂.target_formats)
    (hp : c₁.target_precisions = c₂.target_precisions)
    (ho : c₁.onnx_opsets = c₂.onnx_opsets)
    (hw : c₁.max_workspace_size = c₂.max_workspace_size) :
    conversionSetConfigIter c₁ = conversionSetConfigIter c₂ := by
  cases c₁
  cases c₂
  simp only at hf hp ho hw
  subst hf hp ho hw
  rfl

/-- Witness for C1: the determinism theorem applied at a concrete pair of
requests with equal fields. -/
theorem conversionSetConfigIter_deterministic_witness :
    conversionSetConfigIter
        { target_formats := [Format.TENSORRT, Format.TF_SAVEDMODEL],
          target_precisions := [TensorRTPrecision.FP16, TensorRTPrecision.TF32],
          onnx_opsets := [13] } =
      conversionSetConfigIter
        { target_formats := [Format.TENSORRT, Format.TF_SAVEDMODEL],
          target_precisions := [TensorRTPrecision.FP16, TensorRTPrecision.TF32],
          onnx_opsets := [13] } :=
  conversionSetConfigIter_deterministic _ _ rfl rfl rfl rfl

/-- Claim C2: a request targeting `TENSORRT` (which expands across the two
requested precisions) and then `TF_SAVEDMODEL` (which accepts no options)
expands to exactly 3 `ConversionConfig`s, in the order
[TENSORRT/FP16, TENSORRT/TF32, TF_SAVEDMODEL]; and the `TF_SAVEDMODEL`
sub-expander alone yields exactly one spec. -/
theorem conversionSetConfigIter_two_formats :
    conversionSetConfigIter
        { target_formats := [Format.TENSORRT, Format.TF_SAVEDMODEL],
          target_precisions := [TensorRTPrecision.FP16, TensorRTPrecision.TF32],
          onnx_opsets := [13] } =
      [{ target_format := Format.TENSORRT, target_precision := some TensorRTPrecision.FP16 },
       { target_format := Format.TENSORRT, target_precision := some TensorRTPrecision.TF32 },
       { target_format := Format.TF_SAVEDMODEL }] ∧
    (tensorFlowConfigSetIterator
        { target_formats := [Format.TF_SAVEDMODEL],
          target_precisions := [TensorRTPrecision.FP16, TensorRTPrecision.TF32],
          onnx_opsets := [13] }).length = 1 := by
  constructor
  · rfl
  · rfl

/-- Claim C4, counterexample: on `[FAILED, SUCCEEDED, SUCCEEDED]` the code
publishes the first successful result (index 1) but the single warning it
emits does not name the discarded alternative (path `qqq` of index 2): the
warning text interpolates only the output path. -/
theorem copy_to_output_path_counterexample :
    (_copy_to_output_path
        [mkResult State.FAILED "failed_model" "img", mkResult State.SUCCEEDED "model_a" "img",
         mkResult State.SUCCEEDED "qqq" "img"] "out").copied = some "model_a" ∧
    (_copy_to_output_path
        [mkResult State.FAILED "failed_model" "img", mkResult State.SUCCEEDED "model_a" "img",
         mkResult State.SUCCEEDED "qqq" "img"] "out").warnings = [moreThanOneResultMsg "out"] ∧
    strContains (moreThanOneResultMsg "out") "qqq" = false := by
  refine ⟨rfl, rfl, ?_⟩
  decide

/-- Claim C4 (amended): `_copy_to_output_path` filters to SUCCEEDED results
preserving order; if none succeeded it copies nothing and warns that no usable
artifact exists; if at least one succeeded it copies the first SUCCEEDED
result in original order; exactly one success emits no warning, and more than
one success emits the warning that only the first one is copied into the
output path (without naming the discarded alternatives). -/
theorem copy_to_output_path_policy (results : List ConversionResult) (out : String) :
    (results.filter isSucceeded = [] →
      (_copy_to_output_path results out).copied = none ∧
      (_copy_to_output_path results out).warnings = [noSuccessfulResultsMsg]) ∧
    (∀ r, results.find? isSucceeded = some r →
      (_copy_to_output_path results out).copied = some r.output_model.path) ∧
    ((results.filter isSucceeded).length = 1 →
      (_copy_to_output_path results out).warnings = []) ∧
    (1 < (results.filter isSucceeded).length →
      (_copy_to_output_path results out).warnings = [moreThanOneResultMsg out]) := by
  have hhead : (results.filter isSucceeded).head? = results.find? isSucceeded :=
    head?_filter_eq_find? isSucceeded results
  rcases hfil : results.filter isSucceeded with _ | ⟨x, _ | ⟨y, t⟩⟩ <;>
    rw [hfil] at hhead
  · refine ⟨fun _ => ⟨?_, ?_⟩, fun r hr => ?_, fun h => ?_, fun h => ?_⟩
    · simp [_copy_to_output_path, hfil]
    · simp [_copy_to_output_path, hfil]
    · rw [← hhead] at hr; exact absurd hr (by simp)
    · simp at h
    · simp at h
  · refine ⟨fun h => ?_, fun r hr => ?_, fun _ => ?_, fun h => ?_⟩
    · simp at h
    · rw [← hhead] at hr
      simp only [List.head?_cons, Option.some.injEq] at hr
      subst hr
      simp [_copy_to_output_path, hfil]
    · simp [_copy_to_output_path, hfil]
    · simp at h
  · refine ⟨fun h => ?_, fun r hr => ?_, fun h => ?_, fun _ => ?_⟩
    · simp at h
    · rw [← hhead] at hr
      simp only [List.head?_cons, Option.some.injEq] at hr
      subst hr
      simp [_copy_to_output_path, hfil]
    · simp at h
    · simp [_copy_to_output_path, hfil]

/-- Witness for C4: the amended policy applied to a concrete
`[FAILED, SUCCEEDED, SUCCEEDED]` list. -/
theorem copy_to_output_path_policy_witness :
    (_copy_to_output_path
        [mkResult State.FAILED "failed_model" "img", mkResult State.SUCCEEDED "model_a" "img",
         mkResult State.SUCCEEDED "model_b" "img"] "out").copied = some "model_a" ∧
    (_copy_to_output_path
        [mkResult State.FAILED "failed_model" "img", mkResult State.SUCCEEDED "model_a" "img",
         mkResult State.SUCCEEDED "model_b" "img"] "out").warnings = [moreThanOneResultMsg "out"] :=
  ⟨(copy_to_output_path_policy
      [mkResult State.FAILED "failed_model" "img", mkResult State.SUCCEEDED "model_a" "img",
       mkResult State.SUCCEEDED "model_b" "img"] "out").2.1
      (mkResult State.SUCCEEDED "model_a" "img") (by decide),
   (copy_to_output_path_policy
      [mkResult State.FAILED "failed_model" "img", mkResult State.SUCCEEDED "model_a" "img",
       mkResult State.SUCCEEDED "model_b" "img"] "out").2.2.2 (by decide)⟩

/-- Claim C9: the tail of `convert` raises the no-successful-result error
exactly when zero results have state SUCCEEDED, and when at least one
succeeded it returns the full result list unchanged. -/
theorem convertFinalize_no_successful (results : List ConversionResult)
    (out : Option String) :
    (convertFinalize results out = Except.error navigatorNoSuccessfulMsg ↔
      results.filter isSucceeded = []) ∧
    (∀ rs aux, convertFinalize results out = Except.ok (rs, aux) → rs = results) := by
  rcases hfil : results.filter isSucceeded with _ | ⟨x, xs⟩
  · constructor
    · simp [convertFinalize, hfil]
    · intro rs aux h
      simp [convertFinalize, hfil] at h
  · constructor
    · constructor
      · intro h
        rcases out with _ | o <;> simp [convertFinalize, hfil] at h
      · intro h
        exact absurd h (by simp)
    · intro rs aux h
      rcases out with _ | o <;>
        · simp only [convertFinalize, hfil, List.isEmpty_cons, if_neg] at h
          simp at h
          exact h.1.symm

/-- Witness for C9: at a concrete all-FAILED list the error is raised, and at
a concrete list with one success the list is returned unchanged. -/
theorem convertFinalize_no_successful_witness :
    convertFinalize [mkResult State.FAILED "f" "img"] none =
      Except.error navigatorNoSuccessfulMsg ∧
    [mkResult State.SUCCEEDED "m" "img"] = [mkResult State.SUCCEEDED "m" "img"] :=
  ⟨(convertFinalize_no_successful [mkResult State.FAILED "f" "img"] none).1.mpr (by decide),
   (convertFinalize_no_successful [mkResult State.SUCCEEDED "m" "img"] none).2
     [mkResult State.SUCCEEDED "m" "img"] none rfl⟩

/-- Claim C3: if the step's declared output path already exists under the
workdir before the run, `ExportTF2SavedModel.__call__` takes the cached
branch: the step is skipped, the exporter is not invoked, no reproduction
artifacts are written, the filesystem is left unchanged, and the call returns
the declared output path exactly as a successful run would, so dependents see
the output as satisfied. -/
theorem exportTF2SavedModel_skips_when_output_exists
    (fs : List String) (workdir : String) (modelIsSome : Bool) (args : List String)
    (exporter : Except String Unit)
    (h : (workdir ++ "/" ++ tfSavedModelRelPath) ∈ fs) :
    exportTF2SavedModel_call fs workdir modelIsSome args exporter =
      { fs := fs, ret := Except.ok tfSavedModelRelPath, skipped := true,
        exporterInvoked := false, reproCmd := none } := by
  simp [exportTF2SavedModel_call, h]

/-- Witness for C3: the skip theorem applied at a concrete filesystem already
holding the declared output. -/
theorem exportTF2SavedModel_skips_witness :
    exportTF2SavedModel_call ["wd/tf-savedmodel/model.savedmodel"] "wd" true ["a"]
        (Except.ok ()) =
      { fs := ["wd/tf-savedmodel/model.savedmodel"], ret := Except.ok tfSavedModelRelPath,
        skipped := true, exporterInvoked := false, reproCmd := none } :=
  exportTF2SavedModel_skips_when_output_exists
    ["wd/tf-savedmodel/model.savedmodel"] "wd" true ["a"] (Except.ok ()) (by decide)

/-- Claim C5: for every step body run through `ExecutionContext`, the
standalone reproduction script and the shell command invoking it with the
exact arguments used are persisted on every exit path: both paths exist in
the final filesystem, the persisted command records the script together with
the given arguments, and this holds whatever result (success or failure) the
body produced, which is propagated unchanged. -/
theorem executionContextRun_persists_repro (fs : List String)
    (script_path cmd_path : String) (args : List String)
    (body : List String → List String × Except String Unit) :
    script_path ∈ (executionContextRun fs script_path cmd_path args body).fs ∧
    cmd_path ∈ (executionContextRun fs script_path cmd_path args body).fs ∧
    (executionContextRun fs script_path cmd_path args body).cmd =
      some (script_path, args) ∧
    (executionContextRun fs script_path cmd_path args body).result = (body fs).2 := by
  refine ⟨?_, ?_, rfl, rfl⟩ <;> simp [executionContextRun]

/-- Claim C6: when the re-entrancy marker environment variable is set (to a
truthy value; `_run_in_docker` sets it to `1`), the workspace-cleanup step of
`_run_locally` never wipes the workspace, even when the override-workspace
flag is set: the workspace contents are left untouched. -/
theorem run_locally_no_wipe_when_marker_set (v : String) (ws : WorkspaceState)
    (override_workspace : Bool) (hv : v ≠ "") :
    _run_locally_workspace_step (some v) ws override_workspace = ws := by
  have hb : (v == "") = false := by simp [hv]
  simp [_run_locally_workspace_step, envTruthy, hb]

/-- Witness for C6: a marker set the way `_run_in_docker` sets it leaves a
concrete non-empty workspace untouched despite `override_workspace = true`. -/
theorem run_locally_no_wipe_witness :
    _run_locally_workspace_step (some dockerSandboxMarkerValue)
        { contents := ["old_artifact"] } true =
      { contents := ["old_artifact"] } :=
  run_locally_no_wipe_when_marker_set dockerSandboxMarkerValue
    { contents := ["old_artifact"] } true (by decide)

/-- Claim C7: the container phase of `_run_in_docker` kills the launched
sandbox container on every exit path of the in-sandbox command — success,
`DockerException` (re-raised) and interruption all reach the finally-block
kill — while propagating the command's own result unchanged. -/
theorem run_in_docker_container_always_killed (outcome : CmdOutcome)
    (c : ContainerState) :
    (_run_in_docker_container_phase outcome c).1.killed = true ∧
    (_run_in_docker_container_phase outcome c).2 =
      (match outcome with
        | CmdOutcome.success => Except.ok ()
        | CmdOutcome.dockerError m => Except.error (ContainerRunError.docker m)
        | CmdOutcome.interrupted => Except.error ContainerRunError.interrupt) := by
  cases outcome <;> exact ⟨rfl, rfl⟩

/-- Claim C8: after the sandbox exits, `_run_in_docker` reloads the ledger,
patches every result's `framework_docker_image` field to the resolved base
framework image, leaves every other field of every result unchanged, persists
the patched list back under the same operation name, and leaves every other
operation name in the store untouched. -/
theorem run_in_docker_results_patch (store : String → List ConversionResult)
    (img : String) :
    ((_run_in_docker_results_phase store img).1 "convert_model" =
      (_run_in_docker_results_phase store img).2) ∧
    (∀ n, n ≠ "convert_model" →
      (_run_in_docker_results_phase store img).1 n = store n) ∧
    ((_run_in_docker_results_phase store img).2.length =
      (store "convert_model").length) ∧
    (∀ i (h1 : i < (_run_in_docker_results_phase store img).2.length)
        (h2 : i < (store "convert_model").length),
      ((_run_in_docker_results_phase store img).2.get ⟨i, h1⟩).framework_docker_image
          = img ∧
      ((_run_in_docker_results_phase store img).2.get ⟨i, h1⟩).status =
        ((store "convert_model").get ⟨i, h2⟩).status ∧
      ((_run_in_docker_results_phase store img).2.get ⟨i, h1⟩).output_model =
        ((store "convert_model").get ⟨i, h2⟩).output_model) := by
  refine ⟨?_, ?_, ?_, ?_⟩
  · simp [_run_in_docker_results_phase, resultsStoreDump]
  · intro n hn
    simp [_run_in_docker_results_phase, resultsStoreDump, hn]
  · simp [_run_in_docker_results_phase, resultsStoreLoad]
  · intro i h1 h2
    refine ⟨?_, ?_, ?_⟩ <;>
      simp [_run_in_docker_results_phase, resultsStoreLoad, List.get_eq_getElem]

/-- Witness for C8: the patch theorem at a concrete one-entry store — an
unrelated operation name is untouched, and the single result keeps its status
and model path while its image field becomes the resolved one. -/
theorem run_in_docker_results_patch_witness :
    (_run_in_docker_results_phase witnessStore "new_img").1 "other" = [] ∧
    ((_run_in_docker_results_phase witnessStore "new_img").2.get
        ⟨0, by decide⟩).framework_docker_image = "new_img" ∧
    ((_run_in_docker_results_phase witnessStore "new_img").2.get
        ⟨0, by decide⟩).output_model = { path := "m" } :=
  ⟨(run_in_docker_results_patch witnessStore "new_img").2.1 "other" (by decide),
   ((run_in_docker_results_patch witnessStore "new_img").2.2.2 0 (by decide)
     (by decide)).1,
   ((run_in_docker_results_patch witnessStore "new_img").2.2.2 0 (by decide)
     (by decide)).2.2⟩

/-- Claim C10: `UpdateSavedModelSignature.__call__` has the hard precondition
that its declared SavedModel output path already exists under the workdir:
when it does not, the call fails with an assertion error before any side
effect (filesystem unchanged, exporter not invoked, no reproduction artifacts
written); when it does, the assertion branch is unreachable and the operation
proceeds — the exporter is invoked through `ExecutionContext` and the
reproduction command is persisted. -/
theorem updateSavedModelSignature_assert_precondition (fs : List String)
    (workdir : String) (args : List String) (exporter : Except String Unit) :
    ((workdir ++ "/" ++ tfSavedModelRelPath) ∉ fs →
      updateSavedModelSignature_call fs workdir args exporter =
        { fs := fs, ret := Except.error ExportCallError.assertionError,
          skipped := false, exporterInvoked := false, reproCmd := none }) ∧
    ((workdir ++ "/" ++ tfSavedModelRelPath) ∈ fs →
      (updateSavedModelSignature_call fs workdir args exporter).ret ≠
        Except.error ExportCallError.assertionError ∧
      (updateSavedModelSignature_call fs workdir args exporter).exporterInvoked = true ∧
      (updateSavedModelSignature_call fs workdir args exporter).reproCmd =
        some (workdir ++ "/tf-savedmodel/reproduce_export.py", args)) := by
  constructor
  · intro h
    simp [updateSavedModelSignature_call, h]
  · intro h
    refine ⟨?_, ?_, ?_⟩
    · cases exporter <;> simp [updateSavedModelSignature_call, h, executionContextRun]
    · simp [updateSavedModelSignature_call, h]
    · simp [updateSavedModelSignature_call, h, executionContextRun]

/-- Witness for C10: the precondition theorem at a concrete missing output
(assertion fires, no side effect) and at a concrete present output (the
operation proceeds). -/
theorem updateSavedModelSignature_assert_witness :
    updateSavedModelSignature_call [] "wd" ["a"] (Except.ok ()) =
      { fs := [], ret := Except.error ExportCallError.assertionError,
        skipped := false, exporterInvoked := false, reproCmd := none } ∧
    (updateSavedModelSignature_call ["wd/tf-savedmodel/model.savedmodel"] "wd" ["a"]
        (Except.ok ())).exporterInvoked = true :=
  ⟨(updateSavedModelSignature_assert_precondition [] "wd" ["a"] (Except.ok ())).1
      (by decide),
   ((updateSavedModelSignature_assert_precondition
        ["wd/tf-savedmodel/model.savedmodel"] "wd" ["a"] (Except.ok ())).2
      (by decide)).2.1⟩

end ModelNavigator
